import Mathlib

/-!
Shallow embedding of the `jira` package of the jiracsv repository
(src/jira/issue.go): the issue data model, the classification predicates,
the approval gate, the error-translation shim and the issue-collection
filter/aggregation operations, together with proofs of the specified
properties.

Modelling conventions:
* Go `nil`-able pointers (`*jira.Status`, `*jira.Resolution`, `*jira.Priority`,
  `*jira.Response`, the `error` interface, the `Components` slice) are
  modelled as `Option`.
* A Go nil-pointer dereference (a panic) is modelled by an `Option` result:
  `none` means the operation panics.
* Go strings are Lean `String`; the Go `int` fields relevant here are
  modelled as `Int` (no claim involves machine-word overflow).
* Of the embedded go-jira structs only the fields this package reads are
  carried: the display `Name` of status/type/resolution/priority/component,
  and the HTTP status code of a response.  `Fields.Type` is a value struct
  in go-jira (always readable, name defaults to the empty string), so it is
  carried directly as the string `TypeName`; `Fields.Status` and friends are
  pointers, hence `Option`.
* The `Issue` fields not read by any modelled operation (`Link`,
  `ParentLink`, `LinkedIssues`, `QAContact`, `Acceptance`, `Owner`,
  `Impediment`, `Comments`) are omitted.
-/

namespace Jira

/-- A Go `error` value as this package distinguishes them: the package-level
sentinel `ErrorAuthentication` (`errors.New("Access Unauthorized: ...")`,
compared by identity) or any other error, identified by its message. -/
inductive GoError where
  | errorAuthentication
  | other (msg : String)
deriving DecidableEq

/-- `jira.Response`: only the HTTP status code of the embedded
`http.Response` is read by this package. -/
structure Response where
  StatusCode : Nat
deriving DecidableEq

/-- `http.StatusUnauthorized` -/
def StatusUnauthorized : Nat := 401

/-- `http.StatusForbidden` -/
def StatusForbidden : Nat := 403

/-- `jiraReturnError(ret *jira.Response, err error) error`.
The result is wrapped in an outer `Option`: `none` models the nil-pointer
panic that occurs when `err` is non-nil but `ret` (or its embedded
`http.Response`) is nil, since the code reads `ret.Response.StatusCode`
unconditionally in that branch. -/
def jiraReturnError (ret : Option Response) (err : Option GoError) :
    Option (Option GoError) :=
  match err with
  | none => some none
  | some e =>
    match ret with
    | none => none
    | some r =>
      if r.StatusCode = StatusForbidden ∨ r.StatusCode = StatusUnauthorized then
        some (some GoError.errorAuthentication)
      else
        some (some e)

/-- `IssueApprovals`: six independent boolean gates. -/
structure IssueApprovals where
  Development : Bool
  Product : Bool
  Quality : Bool
  Experience : Bool
  Documentation : Bool
  Support : Bool
deriving DecidableEq

/-- `Approved` returns true if all approvals are true (the `Support` gate is
not consulted by the source). -/
def IssueApprovals.Approved (a : IssueApprovals) : Bool :=
  a.Development == true && a.Product == true && a.Quality == true &&
    a.Experience == true && a.Documentation == true

/-- `IssueType` (string-valued in the source). -/
abbrev IssueType := String

/-- `IssueTypeInitiative` -/
def IssueTypeInitiative : IssueType := "Initiative"

/-- `IssueTypeEpic` -/
def IssueTypeEpic : IssueType := "Epic"

/-- `IssueTypeStory` -/
def IssueTypeStory : IssueType := "Story"

/-- `IssueTypeTask` -/
def IssueTypeTask : IssueType := "Task"

/-- `IssueStatus` (string-valued in the source). -/
abbrev IssueStatus := String

/-- `IssueStatusDone` -/
def IssueStatusDone : IssueStatus := "Done"

/-- `IssueStatusObsolete` -/
def IssueStatusObsolete : IssueStatus := "Obsolete"

/-- `IssueStatusInProgress` -/
def IssueStatusInProgress : IssueStatus := "In Progress"

/-- `IssueStatusFeatureComplete` -/
def IssueStatusFeatureComplete : IssueStatus := "Feature Complete"

/-- `IssueStatusCodeReview` -/
def IssueStatusCodeReview : IssueStatus := "Code Review"

/-- `IssueStatusQEReview` -/
def IssueStatusQEReview : IssueStatus := "QE Review"

/-- `IssueResolution` (string-valued in the source). -/
abbrev IssueResolution := String

/-- `IssueResolutionDone` -/
def IssueResolutionDone : IssueResolution := "Done"

/-- `IssuePriority` (string-valued in the source). -/
abbrev IssuePriority := String

/-- `IssuePriorityUnprioritized` -/
def IssuePriorityUnprioritized : IssuePriority := "Unprioritized"

/-- `jira.Status`: only the display name is read. -/
structure Status where
  Name : String
deriving DecidableEq

/-- `jira.Resolution`: only the display name is read. -/
structure Resolution where
  Name : String
deriving DecidableEq

/-- `jira.Priority`: only the display name is read. -/
structure Priority where
  Name : String
deriving DecidableEq

/-- `jira.Component`: only the display name is read. -/
structure Component where
  Name : String
deriving DecidableEq

/-- The fields of the embedded `jira.Issue` read by this package.
`Status`, `Resolution` and `Priority` are pointers in go-jira, hence
`Option`; `Type` is a value struct whose name is always readable, carried as
`TypeName`; `Components` is a slice whose nil case the source distinguishes
from the empty slice, hence `Option (List Component)`. -/
structure IssueFields where
  Status : Option Jira.Status
  TypeName : String
  Resolution : Option Jira.Resolution
  Priority : Option Jira.Priority
  Components : Option (List Component)
deriving DecidableEq

/-- Modelled from the spec: the sentinel `NoStoryPoints` meaning "story
points unset" is declared in the repository outside src/jira/issue.go.  The
spec describes `StoryPoints` as an "integer ≥ 0, sentinel `NoStoryPoints`
meaning unset" and its aggregation example treats 0 as the unset sentinel
("[3, 0(unset sentinel), 5, 2] sums to 10"), so the sentinel is 0. -/
def NoStoryPoints : Int := 0

/-- The jiracsv `Issue`, restricted to the fields read by the modelled
operations (see the module docstring for the omitted derived fields). -/
structure Issue where
  Fields : IssueFields
  StoryPoints : Int
  Approvals : IssueApprovals
deriving DecidableEq

/-- `IsActive` returns true if the issue is currently worked on.  The
source switches on `IssueStatus(i.Fields.Status.Name)` with NO nil check on
`i.Fields.Status` (contrast `InStatus`), so an absent status is a
nil-pointer dereference: result `none`. -/
def Issue.IsActive (i : Issue) : Option Bool :=
  match i.Fields.Status with
  | none => none
  | some st =>
    if st.Name = IssueStatusInProgress then some true
    else if st.Name = IssueStatusFeatureComplete then some true
    else if st.Name = IssueStatusCodeReview then some true
    else if st.Name = IssueStatusQEReview then some true
    else some false

/-- `IsType` returns true if the issue is of the relevant type.
`Fields.Type` is a value struct, so the read is always defined. -/
def Issue.IsType (i : Issue) (tp : IssueType) : Bool :=
  if i.Fields.TypeName = tp then true else false

/-- `InStatus` returns true if the issue is in the relevant status:
`i.Fields.Status != nil && IssueStatus(i.Fields.Status.Name) == status`. -/
def Issue.InStatus (i : Issue) (status : IssueStatus) : Bool :=
  match i.Fields.Status with
  | none => false
  | some st => st.Name == status

/-- `IsResolved` returns true if the issue Resolution is Done. -/
def Issue.IsResolved (i : Issue) : Bool :=
  match i.Fields.Resolution with
  | none => false
  | some r => r.Name == IssueResolutionDone

/-- `IsPrioritized` returns true if the issue Priority has been set: a
present priority named `Unprioritized` or `""` gives false, everything
else (including an absent priority) gives true. -/
def Issue.IsPrioritized (i : Issue) : Bool :=
  match i.Fields.Priority with
  | none => true
  | some p =>
    if p.Name = IssuePriorityUnprioritized then false
    else if p.Name = "" then false
    else true

/-- `HasStoryPoints` returns true if the issue has Story Points defined. -/
def Issue.HasStoryPoints (i : Issue) : Bool :=
  if i.StoryPoints > NoStoryPoints then true else false

/-- `HasComponent` returns true if the issue has the relevant component:
nil components list gives false, otherwise a linear scan comparing names. -/
def Issue.HasComponent (i : Issue) (component : String) : Bool :=
  match i.Fields.Components with
  | none => false
  | some cs => cs.any (fun c => c.Name == component)

/-- `IssueCollection`: an ordered sequence of issues.  The Go element type
is `*Issue`; in this pure embedding a slot holds an issue value. -/
abbrev IssueCollection := List Issue

/-- The zero `Issue` value, standing in for a not-yet-populated slot. -/
def zeroIssue : Issue :=
  { Fields := { Status := none, TypeName := "", Resolution := none,
                Priority := none, Components := none },
    StoryPoints := 0,
    Approvals := { Development := false, Product := false, Quality := false,
                   Experience := false, Documentation := false,
                   Support := false } }

/-- `NewIssueCollection(size)` returns `make([]*Issue, size)`: `size`
initially-absent slots, modelled as the zero issue.  Within the modelled
code it is only ever called with size 0, where the two readings agree. -/
def NewIssueCollection (size : Nat) : IssueCollection :=
  List.replicate size zeroIssue

/-- `FilterByFunction` returns the issues from the collection that satisfy
the provided function, appending each satisfying issue in order to a fresh
empty collection. -/
def IssueCollection.FilterByFunction (c : IssueCollection)
    (fn : Issue → Bool) : IssueCollection :=
  c.foldl (fun r i => if fn i then r ++ [i] else r) (NewIssueCollection 0)

/-- `Len` returns the number of issues in the collection. -/
def IssueCollection.Len (c : IssueCollection) : Nat :=
  c.length

/-- `StoryPoints` returns the total number of story points for the issues
in the collection: starting from 0, each issue with `HasStoryPoints()` adds
its `StoryPoints`. -/
def IssueCollection.StoryPoints (c : IssueCollection) : Int :=
  c.foldl (fun points i => if i.HasStoryPoints then points + i.StoryPoints
                           else points) 0

/-- An issue with every optional field absent and story points 0. -/
def issueNoStatus : Issue := zeroIssue

/-- An issue whose status field is present with the given name. -/
def issueWithStatus (s : String) : Issue :=
  { zeroIssue with Fields := { zeroIssue.Fields with Status := some { Name := s } } }

/-- An issue whose priority field is present with the given name. -/
def issueWithPriority (p : String) : Issue :=
  { zeroIssue with Fields := { zeroIssue.Fields with Priority := some { Name := p } } }

/-- An issue with the given story points and every optional field absent. -/
def issueWithPoints (n : Int) : Issue :=
  { zeroIssue with StoryPoints := n }

/-- The collection of the spec's aggregation example: story points
3, 0 (unset), 5, 2. -/
def examplePointsCollection : IssueCollection :=
  [issueWithPoints 3, issueWithPoints 0, issueWithPoints 5, issueWithPoints 2]

/-- Folding the filter loop of `FilterByFunction` from any accumulator
appends exactly the filtered suffix. -/
theorem foldl_filter_step (fn : Issue → Bool) (c : List Issue) :
    ∀ acc : List Issue,
      c.foldl (fun r i => if fn i then r ++ [i] else r) acc = acc ++ c.filter fn := by
  induction c with
  | nil => intro acc; simp
  | cons x xs ih =>
    intro acc
    by_cases h : fn x
    · simp [List.foldl_cons, h, ih, List.filter_cons]
    · simp [List.foldl_cons, h, ih, List.filter_cons]

/-- Folding the story-point loop of `StoryPoints` from any accumulator adds
the sum of the per-issue contributions. -/
theorem foldl_points_step (c : List Issue) :
    ∀ acc : Int,
      c.foldl (fun points i => if i.HasStoryPoints then points + i.StoryPoints
                               else points) acc
        = acc + (c.map (fun i => if i.HasStoryPoints then i.StoryPoints else 0)).sum := by
  induction c with
  | nil => intro acc; simp
  | cons x xs ih =>
    intro acc
    by_cases h : x.HasStoryPoints
    · simp [List.foldl_cons, h, ih, add_assoc]
    · simp [List.foldl_cons, h, ih]

/-- C4: `Approved()` is true iff the five gates Development, Product,
Quality, Experience, Documentation are all true, and the result is
independent of the `Support` gate: two approval values differing only in
`Support` yield the same `Approved()` result. -/
theorem C4_approved (a : IssueApprovals) (s : Bool) :
    (a.Approved = true ↔
      (a.Development = true ∧ a.Product = true ∧ a.Quality = true ∧
       a.Experience = true ∧ a.Documentation = true)) ∧
    ({ a with Support := s } : IssueApprovals).Approved = a.Approved := by
  constructor
  · simp [IssueApprovals.Approved, and_assoc]
  · simp [IssueApprovals.Approved]

/-- C5: the error-translation function maps a nil error to nil regardless
of the response; a non-nil error with response status code 401 or 403 to
the authentication sentinel; and a non-nil error with any other status code
to the original error unchanged. -/
theorem C5_jiraReturnError (ret : Option Response) (code : Nat) (e : GoError) :
    jiraReturnError ret none = some none ∧
    ((code = 401 ∨ code = 403) →
      jiraReturnError (some { StatusCode := code }) (some e)
        = some (some GoError.errorAuthentication)) ∧
    (code ≠ 401 → code ≠ 403 →
      jiraReturnError (some { StatusCode := code }) (some e) = some (some e)) := by
  refine ⟨rfl, ?_, ?_⟩
  · rintro (h | h) <;>
      simp [jiraReturnError, StatusForbidden, StatusUnauthorized, h]
  · intro h1 h2
    simp [jiraReturnError, StatusForbidden, StatusUnauthorized, h1, h2]

/-- C5 witness: concrete evaluations at status codes 500 and 401. -/
theorem C5_jiraReturnError_witness :
    jiraReturnError (some { StatusCode := 500 }) none = some none ∧
    jiraReturnError (some { StatusCode := 401 }) (some (GoError.other "boom"))
      = some (some GoError.errorAuthentication) ∧
    jiraReturnError (some { StatusCode := 500 }) (some (GoError.other "boom"))
      = some (some (GoError.other "boom")) :=
  ⟨(C5_jiraReturnError (some { StatusCode := 500 }) 401 (GoError.other "boom")).1,
   (C5_jiraReturnError (some { StatusCode := 500 }) 401 (GoError.other "boom")).2.1
     (Or.inl rfl),
   (C5_jiraReturnError (some { StatusCode := 500 }) 500 (GoError.other "boom")).2.2
     (by decide) (by decide)⟩

/-- C10: with a nil error the translation returns nil without inspecting
the response (it is defined even for a nil response); with a non-nil error
it unconditionally reads the response's status code, panicking (`none`) on
a nil response and returning a value for every present response. -/
theorem C10_jiraReturnError_nil (ret : Option Response) (r : Response) (e : GoError) :
    jiraReturnError ret none = some none ∧
    jiraReturnError none (some e) = none ∧
    (jiraReturnError (some r) (some e)).isSome = true := by
  refine ⟨rfl, rfl, ?_⟩
  by_cases h : r.StatusCode = StatusForbidden ∨ r.StatusCode = StatusUnauthorized <;>
    simp [jiraReturnError, h]

/-- C8: `InStatus(s)` is false whenever the status field is absent,
regardless of `s`, and when a status is present it is true exactly when the
status name equals `s`. -/
theorem C8_inStatus (i : Issue) (s : String) :
    (i.Fields.Status = none → i.InStatus s = false) ∧
    (∀ st, i.Fields.Status = some st → (i.InStatus s = true ↔ st.Name = s)) := by
  constructor
  · intro h; simp [Issue.InStatus, h]
  · intro st h; simp [Issue.InStatus, h]

/-- C8 witness: concrete evaluations on an absent and a present status. -/
theorem C8_inStatus_witness :
    issueNoStatus.InStatus "Done" = false ∧
    ((issueWithStatus "Done").InStatus "Done" = true ↔ ("Done" : String) = "Done") :=
  ⟨(C8_inStatus issueNoStatus "Done").1 rfl,
   (C8_inStatus (issueWithStatus "Done") "Done").2 { Name := "Done" } rfl⟩

/-- C9: `HasStoryPoints()` is true iff `StoryPoints > NoStoryPoints`, and
in particular false when `StoryPoints = NoStoryPoints`. -/
theorem C9_hasStoryPoints (i : Issue) :
    (i.HasStoryPoints = true ↔ i.StoryPoints > NoStoryPoints) ∧
    (i.StoryPoints = NoStoryPoints → i.HasStoryPoints = false) := by
  constructor
  · simp [Issue.HasStoryPoints]
  · intro h; simp [Issue.HasStoryPoints, h]

/-- C9 witness: concrete evaluations at story points 5 and 0. -/
theorem C9_hasStoryPoints_witness :
    ((issueWithPoints 5).HasStoryPoints = true ↔
      (issueWithPoints 5).StoryPoints > NoStoryPoints) ∧
    (issueWithPoints 0).HasStoryPoints = false :=
  ⟨(C9_hasStoryPoints (issueWithPoints 5)).1,
   (C9_hasStoryPoints (issueWithPoints 0)).2 rfl⟩

/-- C3: `IsPrioritized()` is true when the priority field is absent, false
when a priority is present whose name is the empty string or
`Unprioritized`, and true for any other present name. -/
theorem C3_isPrioritized (i : Issue) :
    (i.Fields.Priority = none → i.IsPrioritized = true) ∧
    (∀ p, i.Fields.Priority = some p →
      (i.IsPrioritized = false ↔ (p.Name = "" ∨ p.Name = IssuePriorityUnprioritized))) ∧
    (∀ p, i.Fields.Priority = some p → p.Name ≠ "" →
      p.Name ≠ IssuePriorityUnprioritized → i.IsPrioritized = true) := by
  refine ⟨?_, ?_, ?_⟩
  · intro h; simp [Issue.IsPrioritized, h]
  · intro p h
    by_cases h1 : p.Name = IssuePriorityUnprioritized
    · simp [Issue.IsPrioritized, h, h1]
    · by_cases h2 : p.Name = ""
      · simp [Issue.IsPrioritized, h, h1, h2]
      · simp [Issue.IsPrioritized, h, h1, h2]
  · intro p h h1 h2
    simp [Issue.IsPrioritized, h, h1, h2]

/-- C3 witness: concrete evaluations on an absent priority, the explicit
`Unprioritized` priority and a non-empty priority. -/
theorem C3_isPrioritized_witness :
    issueNoStatus.IsPrioritized = true ∧
    ((issueWithPriority "Unprioritized").IsPrioritized = false ↔
      (("Unprioritized" : String) = "" ∨
        ("Unprioritized" : String) = IssuePriorityUnprioritized)) ∧
    (issueWithPriority "High").IsPrioritized = true :=
  ⟨(C3_isPrioritized issueNoStatus).1 rfl,
   (C3_isPrioritized (issueWithPriority "Unprioritized")).2.1
     { Name := "Unprioritized" } rfl,
   (C3_isPrioritized (issueWithPriority "High")).2.2
     { Name := "High" } rfl (by decide) (by decide)⟩

/-- C6: `FilterByFunction(p)` returns a fresh collection equal to the
in-order filter of the receiver by `p` (exactly the elements on which `p`
is true, in the original relative order); filtering by an always-true
predicate returns the receiver unchanged and filtering by an always-false
predicate returns a collection of length 0. -/
theorem C6_filterByFunction (c : IssueCollection) (p : Issue → Bool) :
    IssueCollection.FilterByFunction c p = c.filter p ∧
    IssueCollection.FilterByFunction c (fun _ => true) = c ∧
    IssueCollection.Len (IssueCollection.FilterByFunction c (fun _ => false)) = 0 := by
  have key : ∀ fn : Issue → Bool, IssueCollection.FilterByFunction c fn = c.filter fn := by
    intro fn
    simp [IssueCollection.FilterByFunction, NewIssueCollection,
      foldl_filter_step fn c]
  refine ⟨key p, ?_, ?_⟩
  · simp [key]
  · simp [key, IssueCollection.Len]

/-- C7: `StoryPoints()` on a collection is the sum of the story points of
exactly the elements with `HasStoryPoints()`, the other elements
contributing 0, and the sum is invariant under permutation of the
collection. -/
theorem C7_storyPoints (c d : IssueCollection) (h : c.Perm d) :
    IssueCollection.StoryPoints c
      = (c.map (fun i => if i.HasStoryPoints then i.StoryPoints else 0)).sum ∧
    IssueCollection.StoryPoints c = IssueCollection.StoryPoints d := by
  have key : ∀ l : IssueCollection, IssueCollection.StoryPoints l
      = (l.map (fun i => if i.HasStoryPoints then i.StoryPoints else 0)).sum := by
    intro l
    simpa using foldl_points_step l 0
  refine ⟨key c, ?_⟩
  rw [key c, key d]
  exact (h.map _).sum_eq

/-- C7 witness: the spec's example collection with story points
[3, 0 (unset), 5, 2] sums to 10, and a permutation of it (its reverse)
yields the same sum. -/
theorem C7_storyPoints_witness :
    examplePointsCollection.Perm examplePointsCollection.reverse ∧
    IssueCollection.StoryPoints examplePointsCollection = 10 ∧
    IssueCollection.StoryPoints examplePointsCollection
      = IssueCollection.StoryPoints examplePointsCollection.reverse := by
  have h : examplePointsCollection.Perm examplePointsCollection.reverse :=
    (List.reverse_perm examplePointsCollection).symm
  have t := C7_storyPoints examplePointsCollection examplePointsCollection.reverse h
  refine ⟨h, ?_, t.2⟩
  rw [t.1]; decide

/-- C1: counterexample — not every classification operation is total on an
issue whose optional fields are absent: `IsActive` dereferences the status
pointer with no nil check, so on an issue with an absent status it panics
(modelled `none`) instead of returning a boolean. -/
theorem C1_counterexample : issueNoStatus.IsActive.isSome = false := by decide

/-- C1 (amended): every classification operation except `IsActive` is total
and returns the conservative default on an absent optional field
(`InStatus` false, `IsResolved` false, `IsPrioritized` true, `HasComponent`
false, `IsType` a plain name comparison); `IsActive` returns a boolean
whenever the status field is present, but dereferences an absent status (a
nil-pointer panic, modelled `none`). -/
theorem C1_classification_total (i : Issue) (s t name : String) :
    (i.Fields.Status = none → i.InStatus s = false ∧ i.IsActive = none) ∧
    (i.Fields.Status.isSome = true → i.IsActive.isSome = true) ∧
    (i.Fields.Resolution = none → i.IsResolved = false) ∧
    (i.Fields.Priority = none → i.IsPrioritized = true) ∧
    (i.Fields.Components = none → i.HasComponent name = false) ∧
    (i.IsType t = true ↔ i.Fields.TypeName = t) := by
  refine ⟨?_, ?_, ?_, ?_, ?_, ?_⟩
  · intro h; exact ⟨by simp [Issue.InStatus, h], by simp [Issue.IsActive, h]⟩
  · intro h
    cases hst : i.Fields.Status with
    | none => rw [hst] at h; simp at h
    | some st =>
      by_cases h1 : st.Name = IssueStatusInProgress <;>
      by_cases h2 : st.Name = IssueStatusFeatureComplete <;>
      by_cases h3 : st.Name = IssueStatusCodeReview <;>
      by_cases h4 : st.Name = IssueStatusQEReview <;>
        simp [Issue.IsActive, hst, h1, h2, h3, h4]
  · intro h; simp [Issue.IsResolved, h]
  · intro h; simp [Issue.IsPrioritized, h]
  · intro h; simp [Issue.HasComponent, h]
  · simp [Issue.IsType]

/-- C1 witness: concrete evaluations on an issue with every optional field
absent and on an issue with a present status. -/
theorem C1_classification_total_witness :
    (issueNoStatus.InStatus "Done" = false ∧ issueNoStatus.IsActive = none) ∧
    (issueWithStatus "Done").IsActive.isSome = true ∧
    issueNoStatus.IsResolved = false ∧
    issueNoStatus.IsPrioritized = true ∧
    issueNoStatus.HasComponent "backend" = false ∧
    (issueNoStatus.IsType "Epic" = true ↔ issueNoStatus.Fields.TypeName = "Epic") :=
  ⟨(C1_classification_total issueNoStatus "Done" "Epic" "backend").1 rfl,
   (C1_classification_total (issueWithStatus "Done") "Done" "Epic" "backend").2.1 rfl,
   (C1_classification_total issueNoStatus "Done" "Epic" "backend").2.2.1 rfl,
   (C1_classification_total issueNoStatus "Done" "Epic" "backend").2.2.2.1 rfl,
   (C1_classification_total issueNoStatus "Done" "Epic" "backend").2.2.2.2.1 rfl,
   (C1_classification_total issueNoStatus "Done" "Epic" "backend").2.2.2.2.2⟩

/-- C2: counterexample — the claim says an absent status field yields
`IsActive() = false`; on the code an absent status is a nil-pointer
dereference (modelled `none`), not `false`. -/
theorem C2_counterexample : ¬ (issueNoStatus.IsActive = some false) := by decide

/-- C2 (amended): for every issue whose status field is present, `IsActive`
is true exactly when the status name is one of "In Progress",
"Feature Complete", "Code Review", "QE Review" and false for every other
present status name (including "Done", "Obsolete" and the empty string);
an absent status field does not yield false but a nil-pointer dereference
(modelled `none`). -/
theorem C2_isActive (i : Issue) (st : Status) (h : i.Fields.Status = some st) :
    (i.IsActive = some true ↔
      (st.Name = IssueStatusInProgress ∨ st.Name = IssueStatusFeatureComplete ∨
       st.Name = IssueStatusCodeReview ∨ st.Name = IssueStatusQEReview)) ∧
    (¬(st.Name = IssueStatusInProgress ∨ st.Name = IssueStatusFeatureComplete ∨
       st.Name = IssueStatusCodeReview ∨ st.Name = IssueStatusQEReview) →
      i.IsActive = some false) ∧
    (∀ j : Issue, j.Fields.Status = none → j.IsActive = none) := by
  refine ⟨?_, ?_, ?_⟩
  · by_cases h1 : st.Name = IssueStatusInProgress <;>
    by_cases h2 : st.Name = IssueStatusFeatureComplete <;>
    by_cases h3 : st.Name = IssueStatusCodeReview <;>
    by_cases h4 : st.Name = IssueStatusQEReview <;>
      simp [Issue.IsActive, h, h1, h2, h3, h4]
  · intro hn
    push_neg at hn
    simp [Issue.IsActive, h, hn.1, hn.2.1, hn.2.2.1, hn.2.2.2]
  · intro j hj; simp [Issue.IsActive, hj]

/-- C2 witness: concrete evaluations on statuses "In Progress" and "Done"
and on an absent status. -/
theorem C2_isActive_witness :
    (issueWithStatus "In Progress").IsActive = some true ∧
    (issueWithStatus "Done").IsActive = some false ∧
    issueNoStatus.IsActive = none := by
  have t1 := C2_isActive (issueWithStatus "In Progress") { Name := "In Progress" } rfl
  have t2 := C2_isActive (issueWithStatus "Done") { Name := "Done" } rfl
  exact ⟨t1.1.mpr (Or.inl rfl), t2.2.1 (by decide), t2.2.2 issueNoStatus rfl⟩

end Jira
